import Mathlib

/-!
Shallow embedding of the Geography RAG tutor (files `rag_system.py`,
`document_processor.py`, `app.py`) and proofs of the specification claims.

External collaborators (Groq LLM, FAISS vector store, PdfReader, the QA
chain) are modelled as oracles: values of `Except String α`, where
`Except.error e` models the collaborator raising a Python exception whose
string rendering is `e`.  The repository's own control flow — the `try`/
`except` blocks, `if` guards and state assignments — is translated
faithfully from the source.  Text is modelled as `List Char`.
-/

set_option autoImplicit false

namespace GeoRAG

/-- A `langchain` `Document`: a text segment, the unit of retrieval. -/
structure Document where
  page_content : List Char
deriving DecidableEq, Repr

/-- An opaque FAISS vector store object, identified by the segments it was
built from (`FAISS.from_documents`). -/
structure VectorStore where
  docs : List Document
deriving DecidableEq, Repr

/-- Behaviour of `vector_store.similarity_search(query, k)`: either the
retrieved documents or a raised exception. -/
def SimilaritySearch : Type := String → Nat → Except String (List Document)

/-- The opaque `ChatGroq` LLM client object. -/
structure LLMObj where
  api_key : String
deriving DecidableEq, Repr

/-- The dictionary returned by `self.qa_chain({"query": question})`:
field `result` and field `source_documents`. -/
structure QAResult where
  result : String
  source_documents : List Document
deriving DecidableEq, Repr

/-- Behaviour of one `self.qa_chain({...})` call (the chain internally
performs retrieval and completion): the result or a raised exception. -/
def ChainCall : Type := String → Except String QAResult

/-- Collaborator events observable from `GeographyRAGSystem`.  A
`chainCall` covers the retrieval and completion work done inside the
QA chain. -/
inductive RagEvent where
  | chainCall (question : String)
deriving DecidableEq, Repr

namespace GeographyRAGSystem

/-- The mutable fields of `GeographyRAGSystem` set in `__init__` /
`_initialize_components` (`rag_system.py` lines 18-20). -/
structure State where
  vector_store : Option SimilaritySearch
  llm : Option LLMObj
  qa_chain : Option ChainCall

/-- Oracles consumed by `_initialize_components`: the `ChatGroq(...)`
constructor, the `os.path.exists("vector_store")` check, the
`FAISS.load_local(...)` call, and the `RetrievalQA.from_chain_type(...)`
call, each of which may raise. -/
structure InitEnv where
  chatGroq : Except String LLMObj
  vectorStoreExists : Bool
  loadLocal : Except String SimilaritySearch
  fromChainType : SimilaritySearch → LLMObj → Except String ChainCall

/-- `_initialize_components` (with `_create_qa_chain` inlined at its single
call site; its `if not self.vector_store or not self.llm: return` guard is
vacuous there because both were just set): all three fields start as `None`;
the whole body runs under `try`/`except`, so a raise at any point leaves the
assignments made so far in place and the rest unset. -/
def init_components (env : InitEnv) : State :=
  match env.chatGroq with
  | Except.error _ => { vector_store := none, llm := none, qa_chain := none }
  | Except.ok llm =>
    if env.vectorStoreExists then
      match env.loadLocal with
      | Except.error _ => { vector_store := none, llm := some llm, qa_chain := none }
      | Except.ok vs =>
        match env.fromChainType vs llm with
        | Except.error _ => { vector_store := some vs, llm := some llm, qa_chain := none }
        | Except.ok chain => { vector_store := some vs, llm := some llm, qa_chain := some chain }
    else
      { vector_store := none, llm := some llm, qa_chain := none }

/-- `GeographyRAGSystem.is_ready`. -/
def is_ready (s : State) : Bool :=
  s.vector_store.isSome && s.qa_chain.isSome

/-- `GeographyRAGSystem.retrieve_relevant_documents`: returns `[]` when
`self.vector_store` is `None`, otherwise calls `similarity_search` and
converts a raised exception into `[]`.  The `Except.ok` result type
records that the method itself never raises. -/
def retrieve_relevant_documents (vector_store : Option SimilaritySearch)
    (query : String) (k : Nat) : Except String (List Document) :=
  match vector_store with
  | none => Except.ok []
  | some search =>
    match search query k with
    | Except.ok docs => Except.ok docs
    | Except.error _ => Except.ok []

/-- The fixed message returned when `self.qa_chain` is unset. -/
def notInitializedMsg : String :=
  "Sorry, the system is not properly initialized. Please check if the vector store exists."

/-- The fixed provenance sentence appended when source documents exist. -/
def provenanceNote : String :=
  "\n\n*This answer is based on NCERT Class 10 Geography textbook content.*"

/-- The user-facing string produced by the `except` clause of
`answer_question`. -/
def errAnswerMsg (e : String) : String :=
  "Error generating answer: " ++ e

/-- `GeographyRAGSystem.answer_question`: guard on `self.qa_chain`, then a
`try` block calling the chain, appending the provenance sentence when
`source_documents` is non-empty, with the `except` clause flattening any
raised exception into a string.  The second component is the trace of
collaborator calls made. -/
def answer_question (qa_chain : Option ChainCall) (question : String) :
    Except String String × List RagEvent :=
  match qa_chain with
  | none => (Except.ok notInitializedMsg, [])
  | some chain =>
    match chain question with
    | Except.ok r =>
      (Except.ok (if r.source_documents = [] then r.result
                  else r.result ++ provenanceNote),
       [RagEvent.chainCall question])
    | Except.error e =>
      (Except.ok (errAnswerMsg e), [RagEvent.chainCall question])

end GeographyRAGSystem

/-- Modelled from the spec: the Chunker.  `split_text_into_chunks` delegates
the actual splitting to langchain's `RecursiveCharacterTextSplitter`, whose
implementation is external to this repository (only its configuration —
`chunk_size`, `chunk_overlap`, `length_function=len` — is in
`document_processor.py`).  Following the spec's description (§4.2, §8), the
chunker is a sliding window producing segments of length at most `C` that
advance by `C - O` characters, so that consecutive segments overlap by `O`
characters.  The step is `max 1 (C - O)` only so the definition is total;
under the spec's precondition `O < C` it equals `C - O`. -/
def chunkText (C O : Nat) (s : List Char) : List (List Char) :=
  if s = [] then []
  else if s.length ≤ C then [s]
  else s.take C :: chunkText C O (s.drop (max 1 (C - O)))
termination_by s.length
decreasing_by
  have h1 : 1 ≤ max 1 (C - O) := Nat.le_max_left _ _
  simp only [List.length_drop]
  omega

/-- Two consecutive segments share exactly `O` characters: the last `O`
characters of the first equal the first `O` characters of the second. -/
def overlapsBy (O : Nat) (a b : List Char) : Prop :=
  O ≤ a.length ∧ O ≤ b.length ∧ a.drop (a.length - O) = b.take O

instance (O : Nat) (a b : List Char) : Decidable (overlapsBy O a b) :=
  inferInstanceAs (Decidable (_ ∧ _ ∧ _))

/-- Concatenation of the non-overlapping portions of a chunk list: the first
chunk whole, then each later chunk with its leading `O` overlap characters
removed. -/
def reconstructChunks (O : Nat) : List (List Char) → List Char
  | [] => []
  | c :: cs => c ++ (cs.map (fun d => d.drop O)).flatten

/-- Events observable from `DocumentProcessor`. -/
inductive DPEvent where
  | pdfRead
  | logMsg (msg : String)
  | diskWrite
deriving DecidableEq, Repr

/-- The on-disk state: the persisted index directory `vector_store`. -/
structure Disk where
  vector_store : Option VectorStore
deriving DecidableEq, Repr

namespace DocumentProcessor

/-- `DocumentProcessor.extract_text_from_pdf`: under `try`, read the pages
(`PdfReader`) and concatenate each page's text followed by a newline; the
`except` clause logs the cause and returns the empty string.  The trace
records the single `PdfReader` attempt and any log line; the method makes
no disk write in either branch. -/
def extract_text_from_pdf (reader : Except String (List (List Char))) :
    List Char × List DPEvent :=
  match reader with
  | Except.ok pages => ((pages.map (fun p => p ++ ['\n'])).flatten, [DPEvent.pdfRead])
  | Except.error e =>
    ([], [DPEvent.pdfRead, DPEvent.logMsg ("Error extracting text from PDF: " ++ e)])

/-- `DocumentProcessor.split_text_into_chunks`: split the text (see
`chunkText`) and wrap each chunk in a `Document`. -/
def split_text_into_chunks (chunk_size chunk_overlap : Nat) (text : List Char) :
    List Document :=
  (chunkText chunk_size chunk_overlap text).map (fun c => { page_content := c })

/-- `DocumentProcessor.create_vector_store`: `FAISS.from_documents` under
`try`, returning `None` when it raises (embedding happens inside this
collaborator call). -/
def create_vector_store (fromDocuments : List Document → Except String VectorStore)
    (documents : List Document) : Option VectorStore :=
  match fromDocuments documents with
  | Except.ok vs => some vs
  | Except.error _ => none

/-- `DocumentProcessor.save_vector_store`: `save_local` under `try`; on
success the index is on disk, on a raise the disk is unchanged. -/
def save_vector_store (saveLocal : VectorStore → Except String Unit)
    (vs : VectorStore) (disk : Disk) : Disk :=
  match saveLocal vs with
  | Except.ok _ => { vector_store := some vs }
  | Except.error _ => disk

/-- Collaborator oracles for one run of `process_document`. -/
structure BuildEnv where
  reader : Except String (List (List Char))
  fromDocuments : List Document → Except String VectorStore
  saveLocal : VectorStore → Except String Unit

/-- `DocumentProcessor.process_document` with the constructor defaults
`chunk_size=1000`, `chunk_overlap=200`: extract, bail out on empty text,
chunk, build the store, and only when the build returned a store (and the
`save_vector_store` flag is set) write it to disk.  Returns the method's
return value together with the resulting disk state. -/
def process_document (env : BuildEnv) (disk : Disk) (save_flag : Bool) :
    Option VectorStore × Disk :=
  let text := (extract_text_from_pdf env.reader).1
  if text = [] then (none, disk)
  else
    let documents := split_text_into_chunks 1000 200 text
    match create_vector_store env.fromDocuments documents with
    | none => (none, disk)
    | some vs =>
      (some vs, if save_flag then save_vector_store env.saveLocal vs disk else disk)

end DocumentProcessor

/-- Events observable from the Streamlit UI handlers. -/
inductive UIEvent where
  | answerCall (question : String)
  | warnEmptyQuestion
deriving DecidableEq, Repr

namespace App

/-- Python `str.strip()`: remove leading and trailing whitespace;
`if question.strip():` tests that the stripped string is non-empty. -/
def stripChars (s : List Char) : List Char :=
  ((s.dropWhile Char.isWhitespace).reverse.dropWhile Char.isWhitespace).reverse

/-- `str.strip()` on strings, via the character-list model. -/
def strip (s : String) : String := String.mk (stripChars s.data)

/-- The ask-button handler in `app.py`'s `main` (lines 163-197): first the
pending-sample substitution (`if default_question and not question.strip():
question = default_question`), then, with the button pressed, either the
`answer_question` call followed by the history append, or the "Please enter
a question first!" warning.  Returns the new history and the trace of
events. -/
def handle_ask (answerer : String → String) (default_question question : String)
    (chat_history : List (String × String)) :
    List (String × String) × List UIEvent :=
  let q := if default_question ≠ "" ∧ strip question = "" then default_question
           else question
  if strip q ≠ "" then
    (chat_history ++ [(q, answerer q)], [UIEvent.answerCall q])
  else
    (chat_history, [UIEvent.warnEmptyQuestion])

/-- The Streamlit session state plus the disk, as `app.py`'s `main` sees
them. -/
structure AppState where
  rag_system : Option GeographyRAGSystem.State
  vector_store_ready : Bool
  chat_history : List (String × String)
  disk : Disk

/-- The Clear-History button handler (`app.py` lines 173-175): it assigns
`st.session_state.chat_history = []` and reruns; nothing else is assigned. -/
def clear_history (s : AppState) : AppState :=
  { s with chat_history := [] }

/-- Readiness as the app observes it through the RAG system object. -/
def app_ready (s : AppState) : Bool :=
  match s.rag_system with
  | none => false
  | some r => GeographyRAGSystem.is_ready r

end App

/-- A QA chain whose single call raises (used as a concrete witness). -/
def failingChain : ChainCall := fun _ => Except.error "completion service down"

/-- A QA chain returning a fixed answer with one source document (used as a
concrete witness). -/
def okChain : ChainCall :=
  fun _ => Except.ok { result := "Answer text.",
                       source_documents := [{ page_content := ['x'] }] }

/-- An initialization environment in which every collaborator succeeds
(used as a concrete witness). -/
def allOkEnv : GeographyRAGSystem.InitEnv :=
  { chatGroq := Except.ok { api_key := "k" }
    vectorStoreExists := true
    loadLocal := Except.ok (fun _ _ => Except.ok [])
    fromChainType := fun _ _ => Except.ok okChain }

/-- A build environment whose `FAISS.from_documents` call raises (used as a
concrete witness). -/
def failBuildEnv : DocumentProcessor.BuildEnv :=
  { reader := Except.ok [['a']]
    fromDocuments := fun _ => Except.error "embedding service down"
    saveLocal := fun _ => Except.ok () }

end GeoRAG

namespace GeoRAG

open GeographyRAGSystem DocumentProcessor App

/-- C1: `answer_question` never propagates a collaborator exception: its
outcome is always `Except.ok` with a user-facing string, and when the QA
chain raises `e` the returned string is the fixed error message built from
`e`. -/
theorem C1_answer_question_catches (qa_chain : Option ChainCall) (question : String) :
    (∃ s, (answer_question qa_chain question).1 = Except.ok s) ∧
    (∀ chain e, qa_chain = some chain → chain question = Except.error e →
      (answer_question qa_chain question).1 = Except.ok (errAnswerMsg e)) := by
  constructor
  · cases qa_chain with
    | none => exact ⟨notInitializedMsg, rfl⟩
    | some chain =>
      cases hc : chain question with
      | ok r =>
        refine ⟨if r.source_documents = [] then r.result
                else r.result ++ provenanceNote, ?_⟩
        simp [answer_question, hc]
      | error e =>
        exact ⟨errAnswerMsg e, by simp [answer_question, hc]⟩
  · intro chain e hqc hc
    subst hqc
    simp [answer_question, hc]

/-- Witness for C1 at a concrete failing chain. -/
theorem C1_answer_question_catches_witness :
    (answer_question (some failingChain) "What are renewable resources?").1 =
      Except.ok (errAnswerMsg "completion service down") :=
  (C1_answer_question_catches (some failingChain) "What are renewable resources?").2
    failingChain "completion service down" rfl rfl

/-- C2: retrieval with `self.vector_store = None` returns the empty list
wrapped in `Except.ok` — an empty sequence, never a raised exception — for
every query and every `k`. -/
theorem C2_retrieve_unset_store (query : String) (k : Nat) :
    retrieve_relevant_documents none query k = Except.ok [] :=
  rfl

/-- C6: on a successful chain call, the answer is the completion text
verbatim, with the fixed provenance sentence appended exactly when at least
one source document was retrieved. -/
theorem C6_answer_question_provenance (chain : ChainCall) (question : String)
    (r : QAResult) (h : chain question = Except.ok r) :
    (answer_question (some chain) question).1 =
      Except.ok (if r.source_documents = [] then r.result
                 else r.result ++ provenanceNote) := by
  simp [answer_question, h]

/-- Witness for C6 at a concrete successful chain with one source document. -/
theorem C6_answer_question_provenance_witness :
    (answer_question (some okChain) "q").1 =
      Except.ok (if ([{ page_content := ['x'] }] : List Document) = []
                 then "Answer text." else "Answer text." ++ provenanceNote) :=
  C6_answer_question_provenance okChain "q"
    { result := "Answer text.", source_documents := [{ page_content := ['x'] }] } rfl

/-- C9: after `__init__` (whatever the collaborators do), `qa_chain` is set
only if `vector_store` and `llm` are both set, and `is_ready` is `true`
exactly when `vector_store` and `qa_chain` are both set.  No public
operation assigns these fields after `__init__`, so the invariant holds
after every operation as well. -/
theorem C9_init_invariant (env : InitEnv) :
    ((init_components env).qa_chain.isSome = true →
      (init_components env).vector_store.isSome = true ∧
      (init_components env).llm.isSome = true) ∧
    (is_ready (init_components env) = true ↔
      (init_components env).vector_store.isSome = true ∧
      (init_components env).qa_chain.isSome = true) := by
  constructor
  · intro h
    cases hg : env.chatGroq with
    | error e => simp [init_components, hg] at h
    | ok llm =>
      by_cases hx : env.vectorStoreExists
      · cases hl : env.loadLocal with
        | error e => simp [init_components, hg, hx, hl] at h
        | ok vs =>
          cases hc : env.fromChainType vs llm with
          | error e => simp [init_components, hg, hx, hl, hc] at h
          | ok chain => simp [init_components, hg, hx, hl, hc]
      · simp [init_components, hg, hx] at h
  · simp [is_ready, Bool.and_eq_true]

/-- Witness for C9 at a concrete all-successful initialization. -/
theorem C9_init_invariant_witness :
    (init_components allOkEnv).vector_store.isSome = true ∧
    (init_components allOkEnv).llm.isSome = true :=
  (C9_init_invariant allOkEnv).1 rfl

/-- C10: with `qa_chain` unset, `answer_question` returns the fixed
"not properly initialized" message and makes no collaborator call (the
event trace is empty). -/
theorem C10_answer_question_uninitialized (question : String) :
    answer_question none question = (Except.ok notInitializedMsg, []) :=
  rfl

/-- Every chunk has length at most `C`. -/
theorem chunkText_length_le (C O : Nat) (s : List Char) :
    ∀ c ∈ chunkText C O s, c.length ≤ C := by
  induction s using chunkText.induct C O with
  | case1 => intro c hc; rw [chunkText] at hc; simp at hc
  | case2 s h1 h2 =>
    intro c hc
    rw [chunkText] at hc
    simp [h1, h2] at hc
    subst hc
    exact h2
  | case3 s h1 h2 ih =>
    intro c hc
    rw [chunkText] at hc
    simp [h1, h2] at hc
    rcases hc with hc | hc
    · subst hc; simp
    · exact ih c hc

/-- With `O < C`, no chunk is empty. -/
theorem chunkText_ne_nil (C O : Nat) (hO : O < C) (s : List Char) :
    ∀ c ∈ chunkText C O s, c ≠ [] := by
  induction s using chunkText.induct C O with
  | case1 => intro c hc; rw [chunkText] at hc; simp at hc
  | case2 s h1 h2 =>
    intro c hc
    rw [chunkText] at hc
    simp [h1, h2] at hc
    subst hc
    exact h1
  | case3 s h1 h2 ih =>
    intro c hc
    rw [chunkText] at hc
    simp [h1, h2] at hc
    rcases hc with hc | hc
    · subst hc
      intro hnil
      rw [List.take_eq_nil_iff] at hnil
      rcases hnil with hnil | hnil
      · omega
      · exact h1 hnil
    · exact ih c hc

/-- With `O < C` and more than `O` characters of input, the chunk list is
non-empty and its head starts with the first `O` characters of the input
and has at least `O` characters. -/
theorem chunkText_head_take (C O : Nat) (hO : O < C) (s : List Char)
    (hs : O < s.length) :
    ∃ b, (chunkText C O s).head? = some b ∧ b.take O = s.take O ∧ O ≤ b.length := by
  rw [chunkText]
  have hne : s ≠ [] := by
    intro h
    subst h
    simp at hs
  by_cases hlen : s.length ≤ C
  · refine ⟨s, ?_, rfl, Nat.le_of_lt hs⟩
    simp [hne, hlen]
  · refine ⟨s.take C, ?_, ?_, ?_⟩
    · simp [hne, hlen]
    · rw [List.take_take, Nat.min_eq_left (Nat.le_of_lt hO)]
    · simp only [List.length_take]
      omega

/-- With `O < C`, consecutive chunks share exactly `O` characters: the last
`O` characters of each chunk equal the first `O` characters of the next. -/
theorem chunkText_chain (C O : Nat) (hO : O < C) (s : List Char) :
    List.Chain' (overlapsBy O) (chunkText C O s) := by
  induction s using chunkText.induct C O with
  | case1 => rw [chunkText]; simp
  | case2 s h1 h2 => rw [chunkText]; simp [h1, h2]
  | case3 s h1 h2 ih =>
    rw [chunkText, if_neg h1, if_neg h2]
    rw [List.chain'_cons']
    refine ⟨?_, ih⟩
    intro y hy
    have hstep : max 1 (C - O) = C - O := by omega
    have hs' : O < (s.drop (max 1 (C - O))).length := by
      simp only [List.length_drop]
      omega
    obtain ⟨b, hb1, hb2, hb3⟩ := chunkText_head_take C O hO _ hs'
    rw [hb1] at hy
    simp at hy
    subst hy
    have hlenC : (s.take C).length = C := by
      simp only [List.length_take]
      omega
    refine ⟨?_, hb3, ?_⟩
    · omega
    · rw [hlenC, List.drop_take, hb2, hstep]
      congr 1
      omega

/-- With `O < C`, dropping the leading `O` characters of every chunk and
concatenating gives the input minus its first `O` characters. -/
theorem chunkText_map_drop_flatten (C O : Nat) (hO : O < C) (s : List Char) :
    ((chunkText C O s).map (fun d => d.drop O)).flatten = s.drop O := by
  induction s using chunkText.induct C O with
  | case1 => rw [chunkText]; simp
  | case2 s h1 h2 => rw [chunkText, if_neg h1, if_pos h2]; simp
  | case3 s h1 h2 ih =>
    rw [chunkText, if_neg h1, if_neg h2]
    have hstep : max 1 (C - O) = C - O := by omega
    rw [hstep] at ih ⊢
    simp only [List.map_cons, List.flatten_cons]
    rw [ih, List.drop_take, List.drop_drop]
    have hCO : C - O + O = C := by omega
    rw [hCO]
    have hsplit : s.drop C = (s.drop O).drop (C - O) := by
      rw [List.drop_drop]
      congr 1
      omega
    rw [hsplit, List.take_append_drop]

/-- With `O < C`, concatenating the non-overlapping portions of the chunks
reconstructs the input. -/
theorem chunkText_reconstruct (C O : Nat) (hO : O < C) (s : List Char) :
    reconstructChunks O (chunkText C O s) = s := by
  rw [chunkText]
  by_cases h1 : s = []
  · subst h1
    simp [reconstructChunks]
  · rw [if_neg h1]
    by_cases h2 : s.length ≤ C
    · rw [if_pos h2]
      simp [reconstructChunks]
    · rw [if_neg h2]
      have hstep : max 1 (C - O) = C - O := by omega
      simp only [reconstructChunks]
      rw [hstep, chunkText_map_drop_flatten C O hO, List.drop_drop]
      have hCO : C - O + O = C := by omega
      rw [hCO, List.take_append_drop]

/-- C3: for every input and every chunk size `C` and overlap `O < C`, the
chunker produces segments of length at most `C`, consecutive segments
sharing exactly `O` characters of overlap, none of them empty; the result
is deterministic (a function of the input), and concatenating the
non-overlapping portions reconstructs the original text. -/
theorem C3_chunker (C O : Nat) (hO : O < C) (s : List Char) :
    (∀ c ∈ chunkText C O s, c.length ≤ C) ∧
    List.Chain' (overlapsBy O) (chunkText C O s) ∧
    (∀ c ∈ chunkText C O s, c ≠ []) ∧
    (∀ t, t = s → chunkText C O t = chunkText C O s) ∧
    reconstructChunks O (chunkText C O s) = s :=
  ⟨chunkText_length_le C O s, chunkText_chain C O hO s, chunkText_ne_nil C O hO s,
   fun _ ht => by rw [ht], chunkText_reconstruct C O hO s⟩

/-- Witness for C3 at `C = 3`, `O = 1` on the five-character input
`"abcde"` (chunks `["abc", "cde"]`). -/
theorem C3_chunker_witness :
    (∀ c ∈ chunkText 3 1 "abcde".toList, c.length ≤ 3) ∧
    List.Chain' (overlapsBy 1) (chunkText 3 1 "abcde".toList) ∧
    (∀ c ∈ chunkText 3 1 "abcde".toList, c ≠ []) ∧
    (∀ t, t = "abcde".toList → chunkText 3 1 t = chunkText 3 1 "abcde".toList) ∧
    reconstructChunks 1 (chunkText 3 1 "abcde".toList) = "abcde".toList :=
  C3_chunker 3 1 (by decide) "abcde".toList

/-- C4: the index build is all-or-nothing.  If `FAISS.from_documents` (the
embedding step) raises, `process_document` returns `None` and the disk is
untouched, and in every run the disk changes only when the method returns a
built store. -/
theorem C4_build_all_or_nothing (env : BuildEnv) (disk : Disk) :
    (∀ e, env.fromDocuments (split_text_into_chunks 1000 200
        (extract_text_from_pdf env.reader).1) = Except.error e →
      process_document env disk true = (none, disk)) ∧
    (∀ save_flag, (process_document env disk save_flag).2 ≠ disk →
      (process_document env disk save_flag).1.isSome = true) := by
  constructor
  · intro e he
    unfold process_document
    by_cases ht : (extract_text_from_pdf env.reader).1 = []
    · simp [ht]
    · simp [ht, create_vector_store, he]
  · intro save_flag h
    unfold process_document at h ⊢
    by_cases ht : (extract_text_from_pdf env.reader).1 = []
    · simp [ht] at h
    · simp only [ht, if_false, if_neg] at h ⊢
      cases hcv : create_vector_store env.fromDocuments
          (split_text_into_chunks 1000 200 (extract_text_from_pdf env.reader).1) with
      | none => rw [hcv] at h; simp at h
      | some vs => simp

/-- Witness for C4 at a concrete build whose embedding step raises. -/
theorem C4_build_all_or_nothing_witness :
    process_document failBuildEnv { vector_store := none } true =
      (none, { vector_store := none }) :=
  (C4_build_all_or_nothing failBuildEnv { vector_store := none }).1
    "embedding service down" rfl

/-- C5: a submitted query that strips to the empty string (with no pending
non-empty sample question) is rejected locally: the history is unchanged
and no collaborator call event occurs. -/
theorem C5_empty_query_rejected (answerer : String → String)
    (default_question question : String) (chat_history : List (String × String))
    (hd : strip default_question = "") (hq : strip question = "") :
    (handle_ask answerer default_question question chat_history).1 = chat_history ∧
    (∀ q, UIEvent.answerCall q ∉
      (handle_ask answerer default_question question chat_history).2) := by
  simp only [handle_ask]
  by_cases hdq : default_question ≠ "" ∧ strip question = ""
  · rw [if_pos hdq, if_neg (by simp [hd])]
    exact ⟨rfl, by simp⟩
  · rw [if_neg hdq, if_neg (by simp [hq])]
    exact ⟨rfl, by simp⟩

/-- Witness for C5 at a concrete whitespace-only question. -/
theorem C5_empty_query_rejected_witness :
    (handle_ask (fun _ => "an answer") "" "   " []).1 = [] ∧
    (∀ q, UIEvent.answerCall q ∉ (handle_ask (fun _ => "an answer") "" "   " []).2) :=
  C5_empty_query_rejected (fun _ => "an answer") "" "   " [] (by decide) (by decide)

/-- C7: clearing the history empties it (displayed count zero) and changes
nothing else: the RAG system object, the readiness flag, the on-disk index
and the observed readiness are all unchanged, in every state. -/
theorem C7_clear_history_frame (s : AppState) :
    (clear_history s).chat_history = [] ∧
    (clear_history s).chat_history.length = 0 ∧
    (clear_history s).rag_system = s.rag_system ∧
    (clear_history s).vector_store_ready = s.vector_store_ready ∧
    (clear_history s).disk = s.disk ∧
    app_ready (clear_history s) = app_ready s :=
  ⟨rfl, rfl, rfl, rfl, rfl, rfl⟩

/-- C8: when the PDF reader raises, `extract_text_from_pdf` returns the
empty string, its trace records exactly one read attempt (no retry) and the
logged cause, and no disk write occurs. -/
theorem C8_extract_catches (e : String) :
    (extract_text_from_pdf (Except.error e)).1 = [] ∧
    (extract_text_from_pdf (Except.error e)).2 =
      [DPEvent.pdfRead, DPEvent.logMsg ("Error extracting text from PDF: " ++ e)] ∧
    DPEvent.diskWrite ∉ (extract_text_from_pdf (Except.error e)).2 := by
  refine ⟨rfl, rfl, ?_⟩
  simp [extract_text_from_pdf]

end GeoRAG
